import Mathlib

/-!
Shallow embedding of the SDISC simulator (src/SDISC.hpp, with the
shift/mask instruction-word accessors of the explicit-layout source
variant) and verification of its specification claims.

Machine words (`WORD`, 16-bit unsigned) are modelled as `Nat` with
explicit reduction modulo 2^16 exactly where the C++ wraps; the 4-bit
operand fields are `Fin 16`.  The register file, memory bank and program
store are total functions from indices, updated with `Function.update`.
-/

namespace SDISC

/-- Run state of the CPU: the C++ enumeration STATE with running and stopped. -/
inductive STATE where
  | running
  | stopped
deriving DecidableEq, Repr

namespace OP

/-- Opcode STP = 0x0 (stop). -/
def STP : Fin 16 := 0x0

/-- Opcode JAL = 0x1 (jump and link). -/
def JAL : Fin 16 := 0x1

/-- Opcode JIE = 0x2 (jump if equal). -/
def JIE : Fin 16 := 0x2

/-- Opcode JIL = 0x3 (jump if less than). -/
def JIL : Fin 16 := 0x3

/-- Opcode STR = 0x4 (store in memory). -/
def STR : Fin 16 := 0x4

/-- Opcode LOD = 0x5 (load from memory). -/
def LOD : Fin 16 := 0x5

/-- Opcode SHB = 0x6 (set high 8 bits). -/
def SHB : Fin 16 := 0x6

/-- Opcode SLB = 0x7 (set low 8 bits). -/
def SLB : Fin 16 := 0x7

/-- Opcode AND = 0x8. -/
def AND : Fin 16 := 0x8

/-- Opcode NND = 0x9 (not and). -/
def NND : Fin 16 := 0x9

/-- Opcode IOR = 0xA (inclusive or). -/
def IOR : Fin 16 := 0xA

/-- Opcode XOR = 0xB (exclusive or). -/
def XOR : Fin 16 := 0xB

/-- Opcode ADD = 0xC. -/
def ADD : Fin 16 := 0xC

/-- Opcode SUB = 0xD. -/
def SUB : Fin 16 := 0xD

/-- Opcode DIV = 0xE: this is the value the source's enum binds to the name
DIV, although its own comment on that line reads Multiply. -/
def DIV : Fin 16 := 0xE

/-- Opcode MUL = 0xF: the value the source's enum binds to the name MUL,
although its own comment on that line reads Divide. -/
def MUL : Fin 16 := 0xF

/-- Tick table: the C++ array tick_count[0x10], indexed by opcode. -/
def tick_count : List Nat :=
  [2, 4, 6, 6, 12, 8, 4, 4, 4, 4, 4, 4, 8, 8, 16, 32]

end OP

/-- Instruction word: 4-bit opcode, 4-bit rega, and the 4-bit regb/regc pair
which overlays the 8-bit immediate; fields are the bit-field members of the
C++ struct Instruction. -/
structure Instruction where
  code : Fin 16
  rega : Fin 16
  regb : Fin 16
  regc : Fin 16
deriving DecidableEq, Repr

/-- Immediate accessor: the low byte overlaying regb/regc, regb being the
high nibble, per the explicit shift/mask accessors of the source
(regb reads bits 7..4 and byte reads bits 7..0 of the word). -/
def Instruction.byte (i : Instruction) : Nat :=
  i.regb.val * 16 + i.regc.val

/-- Memory size: mem_size = 0x10000. -/
def mem_size : Nat := 0x10000

/-- Program-store size: pro_size = 0x10000. -/
def pro_size : Nat := 0x10000

/-- Register-file size: reg_size = 0x10. -/
def reg_size : Nat := 0x10

/-- Memory-cell initial value: init_mem = 0xffff. -/
def init_mem : Nat := 0xffff

/-- Register initial value: init_reg = 0x0000. -/
def init_reg : Nat := 0x0000

/-- Default program slot: init_pro = Instruction(), whose constructor sets
code to OP::STP and every other field to zero. -/
def init_pro : Instruction := ⟨OP.STP, 0, 0, 0⟩

/-- Machine state: the member variables of class CPU.  The register file,
memory bank and program store are total functions; the C++ arrays only
have cells at indices below reg_size, mem_size and pro_size respectively,
and every index the machine forms stays below those bounds. -/
@[ext]
structure CPU where
  tick : Nat
  status : STATE
  PC : Nat
  program : Nat → Instruction
  reg : Nat → Nat
  mem : Nat → Nat

/-- Initial machine: the C++ constructor runs reset() on members whose
initializers set tick = 0, status = stopped and PC = 0. -/
def initCPU : CPU :=
  { tick := 0
  , status := STATE.stopped
  , PC := 0
  , program := fun _ => init_pro
  , reg := fun _ => init_reg
  , mem := fun _ => init_mem }

namespace CPU

/-- Reset: clears the clock, stops the machine and refills the program
store, memory bank and register file; the C++ body does not assign PC. -/
def reset (s : CPU) : CPU :=
  { s with
    tick := 0
  , status := STATE.stopped
  , program := fun _ => init_pro
  , mem := fun _ => init_mem
  , reg := fun _ => init_reg }

/-- Program load (std::vector overload): for every slot index below
pro_size, copy the input when it reaches that far, else write init_pro. -/
def loadProgram (s : CPU) (in_program : List Instruction) : CPU :=
  { s with
    program := fun i =>
      if i < pro_size then
        if i < in_program.length then in_program.getD i init_pro else init_pro
      else s.program i }

/-- Clock update addTicks: add the opcode's entry of tick_count to the
running tick total and return it. -/
def addTicks (s : CPU) (data : Instruction) : CPU × Nat :=
  ({ s with tick := s.tick + OP.tick_count.getD data.code.val 0 },
   OP.tick_count.getD data.code.val 0)

/-- Handler STP: set status to stopped. -/
def STP (s : CPU) (data : Instruction) : CPU × Nat :=
  addTicks { s with status := STATE.stopped } data

/-- Handler JAL: pre-increment PC (a 16-bit increment, wrapping) and keep
that value as old_PC, set PC to reg[regb], then store old_PC in reg[rega]. -/
def JAL (s : CPU) (data : Instruction) : CPU × Nat :=
  let s₀ := { s with PC := (s.PC + 1) % 65536 }
  let old_PC := s₀.PC
  let s₁ := { s₀ with PC := s₀.reg data.regb.val }
  addTicks { s₁ with reg := Function.update s₁.reg data.rega.val old_PC } data

/-- Handler JIE: if reg[rega] equals reg[regb], set PC to reg[regc]. -/
def JIE (s : CPU) (data : Instruction) : CPU × Nat :=
  if s.reg data.rega.val = s.reg data.regb.val then
    addTicks { s with PC := s.reg data.regc.val } data
  else
    addTicks s data

/-- Handler JIL: if reg[rega] is less than reg[regb], set PC to reg[regc]. -/
def JIL (s : CPU) (data : Instruction) : CPU × Nat :=
  if s.reg data.rega.val < s.reg data.regb.val then
    addTicks { s with PC := s.reg data.regc.val } data
  else
    addTicks s data

/-- Handler STR: write reg[rega] to the memory cell addressed by reg[regb]. -/
def STR (s : CPU) (data : Instruction) : CPU × Nat :=
  addTicks { s with mem := Function.update s.mem (s.reg data.regb.val) (s.reg data.rega.val) } data

/-- Handler LOD: load the memory cell addressed by reg[regb] into reg[rega]. -/
def LOD (s : CPU) (data : Instruction) : CPU × Nat :=
  let v := s.mem (s.reg data.regb.val)
  addTicks { s with reg := Function.update s.reg data.rega.val v } data

/-- Handler SHB: keep the low byte of reg[rega] and or in the immediate
shifted into the high byte. -/
def SHB (s : CPU) (data : Instruction) : CPU × Nat :=
  let v := (s.reg data.rega.val &&& 0x00ff) ||| (data.byte <<< 8)
  addTicks { s with reg := Function.update s.reg data.rega.val v } data

/-- Handler SLB: keep the high byte of reg[rega] and or in the immediate. -/
def SLB (s : CPU) (data : Instruction) : CPU × Nat :=
  let v := (s.reg data.rega.val &&& 0xff00) ||| data.byte
  addTicks { s with reg := Function.update s.reg data.rega.val v } data

/-- Handler AND: reg[rega] = reg[regb] bitand reg[regc]. -/
def AND (s : CPU) (data : Instruction) : CPU × Nat :=
  let v := s.reg data.regb.val &&& s.reg data.regc.val
  addTicks { s with reg := Function.update s.reg data.rega.val v } data

/-- Handler NND: the C++ complement of the conjunction, truncated to 16
bits by the uint16 assignment, is xor with 0xffff. -/
def NND (s : CPU) (data : Instruction) : CPU × Nat :=
  let v := 0xffff ^^^ (s.reg data.regb.val &&& s.reg data.regc.val)
  addTicks { s with reg := Function.update s.reg data.rega.val v } data

/-- Handler IOR: reg[rega] = reg[regb] bitor reg[regc]. -/
def IOR (s : CPU) (data : Instruction) : CPU × Nat :=
  let v := s.reg data.regb.val ||| s.reg data.regc.val
  addTicks { s with reg := Function.update s.reg data.rega.val v } data

/-- Handler XOR: reg[rega] = reg[regb] xor reg[regc]. -/
def XOR (s : CPU) (data : Instruction) : CPU × Nat :=
  let v := s.reg data.regb.val ^^^ s.reg data.regc.val
  addTicks { s with reg := Function.update s.reg data.rega.val v } data

/-- Handler ADD: 16-bit wrapping sum, the uint16 assignment reducing
modulo 2^16. -/
def ADD (s : CPU) (data : Instruction) : CPU × Nat :=
  let v := (s.reg data.regb.val + s.reg data.regc.val) % 65536
  addTicks { s with reg := Function.update s.reg data.rega.val v } data

/-- Handler SUB: 16-bit wrapping difference; for 16-bit operands the
uint16 result of the C++ subtraction is (b + 2^16 - c) mod 2^16. -/
def SUB (s : CPU) (data : Instruction) : CPU × Nat :=
  let v := (s.reg data.regb.val + 65536 - s.reg data.regc.val) % 65536
  addTicks { s with reg := Function.update s.reg data.rega.val v } data

/-- Handler MUL: 16-bit wrapping product, the uint16 assignment reducing
modulo 2^16. -/
def MUL (s : CPU) (data : Instruction) : CPU × Nat :=
  let v := (s.reg data.regb.val * s.reg data.regc.val) % 65536
  addTicks { s with reg := Function.update s.reg data.rega.val v } data

/-- Handler DIV: the C++ divides reg[regb] by reg[regc] with no guard; a
zero divisor is undefined behavior (a native divide trap), modelled as
none.  A nonzero divisor gives truncating unsigned division. -/
def DIV (s : CPU) (data : Instruction) : Option (CPU × Nat) :=
  if s.reg data.regc.val = 0 then none
  else
    let v := s.reg data.regb.val / s.reg data.regc.val
    some (addTicks { s with reg := Function.update s.reg data.rega.val v } data)

/-- Dispatcher RUN: the if-chain of CPU::RUN, testing the enum names in
source order; the final branch returns 0 ticks without executing. -/
def RUN (s : CPU) (data : Instruction) : Option (CPU × Nat) :=
  if data.code = OP.STP then some (s.STP data)
  else if data.code = OP.JAL then some (s.JAL data)
  else if data.code = OP.JIE then some (s.JIE data)
  else if data.code = OP.JIL then some (s.JIL data)
  else if data.code = OP.STR then some (s.STR data)
  else if data.code = OP.LOD then some (s.LOD data)
  else if data.code = OP.SHB then some (s.SHB data)
  else if data.code = OP.SLB then some (s.SLB data)
  else if data.code = OP.AND then some (s.AND data)
  else if data.code = OP.NND then some (s.NND data)
  else if data.code = OP.IOR then some (s.IOR data)
  else if data.code = OP.XOR then some (s.XOR data)
  else if data.code = OP.ADD then some (s.ADD data)
  else if data.code = OP.SUB then some (s.SUB data)
  else if data.code = OP.MUL then some (s.MUL data)
  else if data.code = OP.DIV then s.DIV data
  else some (s, 0)

/-- Loop body of CPU::start: fetch the instruction at PC, post-increment
PC (16-bit, wrapping), and dispatch. -/
def fetchExecute (s : CPU) : Option (CPU × Nat) :=
  RUN { s with PC := (s.PC + 1) % 65536 } (s.program s.PC)

/-- While loop of CPU::start, given fuel: stop and return the state when
status is stopped, otherwise run one fetch-execute iteration; none means
the loop neither stopped nor trapped within the given fuel. -/
def loop : Nat → CPU → Option CPU
  | 0, s => if s.status = STATE.stopped then some s else none
  | n + 1, s =>
    if s.status = STATE.stopped then some s
    else
      match s.fetchExecute with
      | none => none
      | some (s', _) => loop n s'

/-- Entry point start: set PC to the start address, set status to running,
then run the while loop (with fuel standing for the unbounded iteration). -/
def start (s : CPU) (start_pc : Nat) (fuel : Nat) : Option CPU :=
  loop fuel { s with PC := start_pc, status := STATE.running }

/-- Execute a list of instructions in order through RUN, propagating the
trap of an unguarded zero-divisor division. -/
def runList (s : CPU) : List Instruction → Option CPU
  | [] => some s
  | d :: l =>
    match s.RUN d with
    | none => none
    | some (s', _) => runList s' l

end CPU

/-- Accessor code() of the shift/mask instruction-word variant: bits 15..12. -/
def codeAcc (data : Nat) : Nat := (data >>> 12) &&& 0xf

/-- Accessor rega() of the shift/mask instruction-word variant: bits 11..8. -/
def regaAcc (data : Nat) : Nat := (data >>> 8) &&& 0xf

/-- Accessor regb() of the shift/mask instruction-word variant: bits 7..4. -/
def regbAcc (data : Nat) : Nat := (data >>> 4) &&& 0xf

/-- Accessor regc() of the shift/mask instruction-word variant: bits 3..0. -/
def regcAcc (data : Nat) : Nat := (data >>> 0) &&& 0xf

/-- Accessor byte() of the shift/mask instruction-word variant: bits 7..0. -/
def byteAcc (data : Nat) : Nat := (data >>> 0) &&& 0xff

end SDISC

namespace SDISC

/-- Every 4-bit opcode equals one of the sixteen enum constants. -/
theorem code_cases : ∀ c : Fin 16,
    c = OP.STP ∨ c = OP.JAL ∨ c = OP.JIE ∨ c = OP.JIL ∨
    c = OP.STR ∨ c = OP.LOD ∨ c = OP.SHB ∨ c = OP.SLB ∨
    c = OP.AND ∨ c = OP.NND ∨ c = OP.IOR ∨ c = OP.XOR ∨
    c = OP.ADD ∨ c = OP.SUB ∨ c = OP.MUL ∨ c = OP.DIV := by
  decide

/-- Dispatch: an instruction whose opcode is OP.STP runs the STP handler. -/
theorem RUN_code_STP (s : CPU) (d : Instruction) (h : d.code = OP.STP) :
    CPU.RUN s d = some (s.STP d) := by
  unfold CPU.RUN
  rw [h]
  exact rfl

/-- Dispatch: an instruction whose opcode is OP.JAL runs the JAL handler. -/
theorem RUN_code_JAL (s : CPU) (d : Instruction) (h : d.code = OP.JAL) :
    CPU.RUN s d = some (s.JAL d) := by
  unfold CPU.RUN
  rw [h]
  exact rfl

/-- Dispatch: an instruction whose opcode is OP.JIE runs the JIE handler. -/
theorem RUN_code_JIE (s : CPU) (d : Instruction) (h : d.code = OP.JIE) :
    CPU.RUN s d = some (s.JIE d) := by
  unfold CPU.RUN
  rw [h]
  exact rfl

/-- Dispatch: an instruction whose opcode is OP.JIL runs the JIL handler. -/
theorem RUN_code_JIL (s : CPU) (d : Instruction) (h : d.code = OP.JIL) :
    CPU.RUN s d = some (s.JIL d) := by
  unfold CPU.RUN
  rw [h]
  exact rfl

/-- Dispatch: an instruction whose opcode is OP.STR runs the STR handler. -/
theorem RUN_code_STR (s : CPU) (d : Instruction) (h : d.code = OP.STR) :
    CPU.RUN s d = some (s.STR d) := by
  unfold CPU.RUN
  rw [h]
  exact rfl

/-- Dispatch: an instruction whose opcode is OP.LOD runs the LOD handler. -/
theorem RUN_code_LOD (s : CPU) (d : Instruction) (h : d.code = OP.LOD) :
    CPU.RUN s d = some (s.LOD d) := by
  unfold CPU.RUN
  rw [h]
  exact rfl

/-- Dispatch: an instruction whose opcode is OP.SHB runs the SHB handler. -/
theorem RUN_code_SHB (s : CPU) (d : Instruction) (h : d.code = OP.SHB) :
    CPU.RUN s d = some (s.SHB d) := by
  unfold CPU.RUN
  rw [h]
  exact rfl

/-- Dispatch: an instruction whose opcode is OP.SLB runs the SLB handler. -/
theorem RUN_code_SLB (s : CPU) (d : Instruction) (h : d.code = OP.SLB) :
    CPU.RUN s d = some (s.SLB d) := by
  unfold CPU.RUN
  rw [h]
  exact rfl

/-- Dispatch: an instruction whose opcode is OP.AND runs the AND handler. -/
theorem RUN_code_AND (s : CPU) (d : Instruction) (h : d.code = OP.AND) :
    CPU.RUN s d = some (s.AND d) := by
  unfold CPU.RUN
  rw [h]
  exact rfl

/-- Dispatch: an instruction whose opcode is OP.NND runs the NND handler. -/
theorem RUN_code_NND (s : CPU) (d : Instruction) (h : d.code = OP.NND) :
    CPU.RUN s d = some (s.NND d) := by
  unfold CPU.RUN
  rw [h]
  exact rfl

/-- Dispatch: an instruction whose opcode is OP.IOR runs the IOR handler. -/
theorem RUN_code_IOR (s : CPU) (d : Instruction) (h : d.code = OP.IOR) :
    CPU.RUN s d = some (s.IOR d) := by
  unfold CPU.RUN
  rw [h]
  exact rfl

/-- Dispatch: an instruction whose opcode is OP.XOR runs the XOR handler. -/
theorem RUN_code_XOR (s : CPU) (d : Instruction) (h : d.code = OP.XOR) :
    CPU.RUN s d = some (s.XOR d) := by
  unfold CPU.RUN
  rw [h]
  exact rfl

/-- Dispatch: an instruction whose opcode is OP.ADD runs the ADD handler. -/
theorem RUN_code_ADD (s : CPU) (d : Instruction) (h : d.code = OP.ADD) :
    CPU.RUN s d = some (s.ADD d) := by
  unfold CPU.RUN
  rw [h]
  exact rfl

/-- Dispatch: an instruction whose opcode is OP.SUB runs the SUB handler. -/
theorem RUN_code_SUB (s : CPU) (d : Instruction) (h : d.code = OP.SUB) :
    CPU.RUN s d = some (s.SUB d) := by
  unfold CPU.RUN
  rw [h]
  exact rfl

/-- Dispatch: an instruction whose opcode is OP.MUL runs the MUL handler. -/
theorem RUN_code_MUL (s : CPU) (d : Instruction) (h : d.code = OP.MUL) :
    CPU.RUN s d = some (s.MUL d) := by
  unfold CPU.RUN
  rw [h]
  exact rfl

/-- Dispatch: an instruction whose opcode is OP.DIV runs the DIV handler. -/
theorem RUN_code_DIV (s : CPU) (d : Instruction) (h : d.code = OP.DIV) :
    CPU.RUN s d = s.DIV d := by
  unfold CPU.RUN
  rw [h]
  exact rfl

end SDISC

namespace SDISC

/-- Execution of one dispatched instruction adds exactly the opcode's
tick_count entry to the clock, returns that count, and leaves the program
store untouched. -/
theorem RUN_tick_program (s : CPU) (d : Instruction) (r : CPU × Nat)
    (h : CPU.RUN s d = some r) :
    r.1.tick = s.tick + OP.tick_count.getD d.code.val 0 ∧
    r.1.program = s.program ∧
    r.2 = OP.tick_count.getD d.code.val 0 := by
  rcases code_cases d.code with hc|hc|hc|hc|hc|hc|hc|hc|hc|hc|hc|hc|hc|hc|hc|hc
  · rw [RUN_code_STP s d hc] at h
    cases h
    exact ⟨rfl, rfl, rfl⟩
  · rw [RUN_code_JAL s d hc] at h
    cases h
    exact ⟨rfl, rfl, rfl⟩
  · rw [RUN_code_JIE s d hc] at h
    cases h
    unfold CPU.JIE
    split
    · exact ⟨rfl, rfl, rfl⟩
    · exact ⟨rfl, rfl, rfl⟩
  · rw [RUN_code_JIL s d hc] at h
    cases h
    unfold CPU.JIL
    split
    · exact ⟨rfl, rfl, rfl⟩
    · exact ⟨rfl, rfl, rfl⟩
  · rw [RUN_code_STR s d hc] at h
    cases h
    exact ⟨rfl, rfl, rfl⟩
  · rw [RUN_code_LOD s d hc] at h
    cases h
    exact ⟨rfl, rfl, rfl⟩
  · rw [RUN_code_SHB s d hc] at h
    cases h
    exact ⟨rfl, rfl, rfl⟩
  · rw [RUN_code_SLB s d hc] at h
    cases h
    exact ⟨rfl, rfl, rfl⟩
  · rw [RUN_code_AND s d hc] at h
    cases h
    exact ⟨rfl, rfl, rfl⟩
  · rw [RUN_code_NND s d hc] at h
    cases h
    exact ⟨rfl, rfl, rfl⟩
  · rw [RUN_code_IOR s d hc] at h
    cases h
    exact ⟨rfl, rfl, rfl⟩
  · rw [RUN_code_XOR s d hc] at h
    cases h
    exact ⟨rfl, rfl, rfl⟩
  · rw [RUN_code_ADD s d hc] at h
    cases h
    exact ⟨rfl, rfl, rfl⟩
  · rw [RUN_code_SUB s d hc] at h
    cases h
    exact ⟨rfl, rfl, rfl⟩
  · rw [RUN_code_MUL s d hc] at h
    cases h
    exact ⟨rfl, rfl, rfl⟩
  · rw [RUN_code_DIV s d hc] at h
    unfold CPU.DIV at h
    split at h
    · exact absurd h (by simp)
    · cases h
      exact ⟨rfl, rfl, rfl⟩

end SDISC

namespace SDISC

/-- Register file holding x in register 2 and y in register 3, all other
registers zero; used for concrete executions. -/
def regBC (x y : Nat) : Nat → Nat :=
  fun i => if i = 2 then x else if i = 3 then y else 0

/-- Machine whose registers hold x in register 2 and y in register 3. -/
def stateBC (x y : Nat) : CPU :=
  { initCPU with reg := regBC x y }

/-- Claim C1: the claim reads opcode 0xE as MUL (16 ticks, product mod 2^16)
and 0xF as DIV (32 ticks, quotient).  On the code, with reg2 = 6 and
reg3 = 2, the instruction with opcode 0xE writes 6 / 2 = 3 into reg1 while
charging 16 ticks, and the instruction with opcode 0xF writes 6 * 2 = 12
while charging 32 ticks: the two arithmetic operations are swapped
relative to the claim (and to the enum's own line comments), so opcode 0xE
does not compute the product. -/
theorem C1_opcode_0xE_divides_0xF_multiplies :
    (CPU.RUN (stateBC 6 2) ⟨0xE, 1, 2, 3⟩).map (fun r => (r.1.reg 1, r.2)) = some (3, 16)
    ∧ (CPU.RUN (stateBC 6 2) ⟨0xF, 1, 2, 3⟩).map (fun r => (r.1.reg 1, r.2)) = some (12, 32)
    ∧ (3 : Nat) ≠ 6 * 2 % 65536 := by
  refine ⟨rfl, rfl, by decide⟩

/-- Claim C2: executing the division opcode 0xE with reg[regc] = 0 (here on
a freshly reset machine, whose registers are all zero) does not produce any
result state at all: the C++ runs an unguarded native division, which for a
zero divisor is undefined behavior (a trap), modelled as none.  In
particular no state with Run State Stopped and register A preserved is
produced, and no explicit error result is returned by the engine. -/
theorem C2_div_by_zero_is_native_trap :
    (CPU.reset initCPU).reg 3 = 0
    ∧ CPU.RUN (CPU.reset initCPU) ⟨0xE, 1, 2, 3⟩ = none := by
  exact ⟨rfl, rfl⟩

/-- Machine about to fetch JAL(A=1, B=2) at address 10 with reg2 = 0x20. -/
def stateJAL : CPU :=
  { initCPU with
    PC := 10
  , program := Function.update (fun _ => init_pro) 10 ⟨1, 1, 2, 0⟩
  , reg := Function.update (fun _ => 0) 2 0x20 }

/-- Claim C3: executing JAL(A=1, B=2) fetched from address 10 with
reg2 = 0x20 jumps to 0x20 but stores 12 = 10 + 2 into reg1, not 11: the
fetch in start already incremented PC to 11 and CPU::JAL pre-increments it
again before saving, so the link value is the fetch address plus two. -/
theorem C3_jal_stores_fetch_address_plus_two :
    (CPU.fetchExecute stateJAL).map (fun r => (r.1.reg 1, r.1.PC)) = some (12, 0x20)
    ∧ (12 : Nat) ≠ 10 + 1 := by
  exact ⟨rfl, by decide⟩

/-- Claim C4, counterexample: reset() called on a machine whose PC is 5
leaves PC at 5, so inspection after reset() does not show PC = 0. -/
theorem C4_counterexample_reset_keeps_pc :
    (CPU.reset { initCPU with PC := 5 }).PC = 5 ∧ (5 : Nat) ≠ 0 := by
  exact ⟨rfl, by decide⟩

/-- Claim C4 as amended: after reset(), called from any state, the clock is
0, the Run State is Stopped, every register is 0x0000, every memory cell is
0xFFFF and every program slot is the default instruction (whose opcode is
STP); PC is not assigned by reset() and keeps its previous value. -/
theorem C4_reset_clears_all_but_pc (s : CPU) :
    (CPU.reset s).tick = 0
    ∧ (CPU.reset s).status = STATE.stopped
    ∧ (∀ i, (CPU.reset s).reg i = 0x0000)
    ∧ (∀ a, (CPU.reset s).mem a = 0xffff)
    ∧ (∀ p, (CPU.reset s).program p = init_pro)
    ∧ init_pro.code = OP.STP
    ∧ (CPU.reset s).PC = s.PC := by
  exact ⟨rfl, rfl, fun _ => rfl, fun _ => rfl, fun _ => rfl, rfl, rfl⟩

/-- Oring a nibble shifted left by four with a second nibble is the same
as sixteen times the first plus the second. -/
theorem lor_nibbles : ∀ a b : Fin 16, ((a.val <<< 4) ||| b.val) = a.val * 16 + b.val := by
  decide

/-- Claim C6: on every instruction word, byte() returns the full low byte
with regb() as its high nibble and regc() as its low nibble, that is
byte() = (regb() shifted left 4) or regc(); the 8-bit immediate and the
two 4-bit fields read the same raw bits. -/
theorem C6_byte_combines_regb_regc (w : Nat) :
    byteAcc w = ((regbAcc w) <<< 4) ||| regcAcc w := by
  unfold byteAcc regbAcc regcAcc
  have hsr : w >>> 4 = w / 16 := by
    rw [Nat.shiftRight_eq_div_pow]
  have h255 : w >>> 0 &&& 0xff = w % 256 := by
    rw [Nat.shiftRight_zero]
    simpa using Nat.and_pow_two_sub_one_eq_mod w 8
  have h15 : w >>> 0 &&& 0xf = w % 16 := by
    rw [Nat.shiftRight_zero]
    simpa using Nat.and_pow_two_sub_one_eq_mod w 4
  have h15' : (w >>> 4) &&& 0xf = (w / 16) % 16 := by
    rw [hsr]
    simpa using Nat.and_pow_two_sub_one_eq_mod (w / 16) 4
  rw [h255, h15, h15']
  have h := lor_nibbles ⟨w / 16 % 16, Nat.mod_lt _ (by norm_num)⟩ ⟨w % 16, Nat.mod_lt _ (by norm_num)⟩
  simp only at h
  rw [h]
  omega

end SDISC

namespace SDISC

/-- Loading a program only ever writes the first pro_size slots from the
input: the loop index stops at pro_size, so a longer input is loaded
exactly as its 65536-entry prefix would be. -/
theorem loadProgram_take (s : CPU) (l : List Instruction) :
    CPU.loadProgram s l = CPU.loadProgram s (l.take 65536) := by
  unfold CPU.loadProgram
  congr 1
  funext i
  by_cases hi : i < pro_size
  · rw [if_pos hi, if_pos hi]
    have hi' : i < 65536 := by
      simpa [pro_size] using hi
    have hlen : (l.take 65536).length = min 65536 l.length := List.length_take 65536 l
    by_cases hil : i < l.length
    · have ht : i < (l.take 65536).length := by
        rw [hlen]
        omega
      rw [if_pos hil, if_pos ht]
      rw [List.getD_eq_getElem?_getD, List.getD_eq_getElem?_getD]
      rw [List.getElem?_take_of_lt hi']
    · have ht : ¬ i < (l.take 65536).length := by
        rw [hlen]
        omega
      rw [if_neg hil, if_neg ht]
  · rw [if_neg hi, if_neg hi]

/-- Claim C5, counterexample: a 65537-entry input is not rejected —
loadProgram is total and returns normally — and it produces exactly the
same program store as its 65536-entry prefix, i.e. it is silently
truncated; the entry beyond capacity is dropped without any failure. -/
theorem C5_counterexample_loadProgram_truncates :
    (List.replicate 65537 (⟨1, 0, 0, 0⟩ : Instruction)).length > 65536
    ∧ CPU.loadProgram initCPU (List.replicate 65537 ⟨1, 0, 0, 0⟩)
      = CPU.loadProgram initCPU (List.replicate 65536 ⟨1, 0, 0, 0⟩) := by
  constructor
  · rw [List.length_replicate]
    omega
  · rw [loadProgram_take initCPU (List.replicate 65537 ⟨1, 0, 0, 0⟩)]
    have hm : min 65536 65537 = 65536 := by omega
    have harg : (List.replicate 65537 (⟨1, 0, 0, 0⟩ : Instruction)).take 65536
        = List.replicate 65536 (⟨1, 0, 0, 0⟩ : Instruction) := by
      rw [List.take_replicate, hm]
    rw [harg]

/-- Claim C5 as amended: loadProgram never rejects its input; every slot
below capacity receives the corresponding input entry when the input
reaches that far and the default instruction otherwise, so an input longer
than 65536 is silently truncated to its first 65536 entries. -/
theorem C5_loadProgram_copies_and_fills (s : CPU) (l : List Instruction) (i : Nat)
    (hi : i < 65536) :
    (CPU.loadProgram s l).program i = if i < l.length then l.getD i init_pro else init_pro := by
  unfold CPU.loadProgram
  simp only [pro_size]
  rw [if_pos (by omega)]

/-- Witness for C5: slot 0 after loading a one-instruction program holds
that instruction. -/
theorem C5_loadProgram_copies_and_fills_witness :
    (CPU.loadProgram initCPU [⟨1, 0, 0, 0⟩]).program 0 = ⟨1, 0, 0, 0⟩ :=
  (C5_loadProgram_copies_and_fills initCPU [⟨1, 0, 0, 0⟩] 0 (by decide)).trans (by decide)

/-- Claim C7: over any sequence of executed instructions the clock grows
by exactly the sum of the tick_count entries of their opcodes; each step's
contribution is a function of the opcode alone (see RUN_tick_program),
never of operand values or branch outcomes. -/
theorem C7_clock_sums_fixed_opcode_costs (s : CPU) (l : List Instruction) (s' : CPU)
    (h : CPU.runList s l = some s') :
    s'.tick = s.tick + (l.map (fun d => OP.tick_count.getD d.code.val 0)).sum := by
  induction l generalizing s with
  | nil =>
    unfold CPU.runList at h
    cases h
    simp
  | cons d t ih =>
    unfold CPU.runList at h
    cases hr : CPU.RUN s d with
    | none =>
      rw [hr] at h
      cases h
    | some r =>
      rw [hr] at h
      obtain ⟨s₁, t₁⟩ := r
      have hstep : s₁.tick = s.tick + OP.tick_count.getD d.code.val 0 :=
        (RUN_tick_program s d (s₁, t₁) hr).1
      have htail := ih s₁ h
      rw [List.map_cons, List.sum_cons]
      omega

/-- Machine after running ADD(1,2,3) then STP from stateBC 6 2: the clock
holds 8 + 2 = 10 ticks. -/
def sC7 : CPU :=
  { initCPU with
    tick := 10
  , status := STATE.stopped
  , reg := Function.update (regBC 6 2) 1 8 }

/-- Witness for C7: a concrete two-instruction run (ADD, then STP) whose
clock ends at 0 + (8 + 2). -/
theorem C7_clock_sums_fixed_opcode_costs_witness :
    sC7.tick = (stateBC 6 2).tick
      + (([⟨0xC, 1, 2, 3⟩, ⟨0, 0, 0, 0⟩] : List Instruction).map
          (fun d => OP.tick_count.getD d.code.val 0)).sum :=
  C7_clock_sums_fixed_opcode_costs (stateBC 6 2) [⟨0xC, 1, 2, 3⟩, ⟨0, 0, 0, 0⟩] sC7 rfl

/-- Claim C10: executing any single instruction through RUN leaves the
program store unchanged, for every opcode, operand values and machine
state; a running program can never modify itself. -/
theorem C10_run_never_writes_program_store (s : CPU) (d : Instruction) (r : CPU × Nat)
    (h : CPU.RUN s d = some r) : r.1.program = s.program :=
  (RUN_tick_program s d r h).2.1

/-- Result of executing STP on the initial machine. -/
def rSTP : CPU × Nat := CPU.STP initCPU ⟨0, 0, 0, 0⟩

/-- Witness for C10: the concrete STP execution leaves the program store
of the initial machine unchanged. -/
theorem C10_run_never_writes_program_store_witness :
    rSTP.1.program = initCPU.program :=
  C10_run_never_writes_program_store initCPU ⟨0, 0, 0, 0⟩ rSTP rfl

end SDISC

namespace SDISC

/-- A stopped machine makes the while loop of start return immediately,
whatever fuel remains. -/
theorem loop_of_stopped (k : Nat) (s : CPU) (h : s.status = STATE.stopped) :
    CPU.loop k s = some s := by
  cases k <;> simp [CPU.loop, h]

/-- Claim C8: on a freshly reset machine loaded with a program consisting
solely of STP instructions, start(0) terminates — the loop returns within
any fuel of at least one iteration — and afterwards the Run State is
Stopped and the clock, cleared to 0 by reset, has increased by exactly
STP's fixed cost of 2 ticks. -/
theorem C8_stp_program_halts_with_two_ticks (s₀ : CPU) (l : List Instruction) (fuel : Nat)
    (hl : ∀ d ∈ l, d.code = OP.STP) (hf : 1 ≤ fuel) :
    ∃ s', CPU.start (CPU.loadProgram (CPU.reset s₀) l) 0 fuel = some s'
      ∧ s'.status = STATE.stopped ∧ s'.tick = 2 := by
  obtain ⟨k, rfl⟩ : ∃ k, fuel = k + 1 := ⟨fuel - 1, by omega⟩
  have hcode :
      (({ CPU.loadProgram (CPU.reset s₀) l with
          PC := 0, status := STATE.running } : CPU).program 0).code = OP.STP := by
    show ((CPU.loadProgram (CPU.reset s₀) l).program 0).code = OP.STP
    unfold CPU.loadProgram
    simp only [pro_size]
    rw [if_pos (by norm_num)]
    cases l with
    | nil => rfl
    | cons d t =>
      rw [if_pos (by simp)]
      simpa using hl d (by simp)
  refine ⟨(CPU.STP { CPU.loadProgram (CPU.reset s₀) l with
      PC := 1 % 65536, status := STATE.running }
      (({ CPU.loadProgram (CPU.reset s₀) l with
          PC := 0, status := STATE.running } : CPU).program 0)).1, ?_, ?_, ?_⟩
  · unfold CPU.start
    rw [CPU.loop]
    rw [if_neg (by exact fun hh => STATE.noConfusion hh)]
    have hfe :
        ({ CPU.loadProgram (CPU.reset s₀) l with
            PC := 0, status := STATE.running } : CPU).fetchExecute
          = some (CPU.STP { CPU.loadProgram (CPU.reset s₀) l with
              PC := 1 % 65536, status := STATE.running }
              (({ CPU.loadProgram (CPU.reset s₀) l with
                  PC := 0, status := STATE.running } : CPU).program 0)) := by
      unfold CPU.fetchExecute
      exact RUN_code_STP _ _ hcode
    rw [hfe]
    exact loop_of_stopped k _ rfl
  · rfl
  · show (CPU.loadProgram (CPU.reset s₀) l).tick
      + OP.tick_count.getD (({ CPU.loadProgram (CPU.reset s₀) l with
          PC := 0, status := STATE.running } : CPU).program 0).code.val 0 = 2
    rw [hcode]
    rfl

/-- Witness for C8: the empty program (the reset store is already all
STP) halts in one iteration with two ticks on the clock. -/
theorem C8_stp_program_halts_with_two_ticks_witness :
    ∃ s', CPU.start (CPU.loadProgram (CPU.reset initCPU) []) 0 1 = some s'
      ∧ s'.status = STATE.stopped ∧ s'.tick = 2 :=
  C8_stp_program_halts_with_two_ticks initCPU [] 1 (by simp) (by norm_num)

/-- Claim C9: for the opcodes named ADD, SUB and MUL in the source enum
(0xC, 0xD and 0xF, the last being the one the dispatcher sends to the
multiply handler), the executed instruction stores into reg[rega] exactly
the sum, difference and product of reg[regb] and reg[regc] reduced modulo
2^16, with full wraparound and no saturation; the difference is stated
over the integers for 16-bit operand values. -/
theorem C9_add_sub_mul_wrap_mod_2_16 (s : CPU) (d : Instruction) (r : CPU × Nat) :
    (d.code = OP.ADD → CPU.RUN s d = some r →
      r.1.reg d.rega.val = (s.reg d.regb.val + s.reg d.regc.val) % 65536)
    ∧ (d.code = OP.SUB → CPU.RUN s d = some r → s.reg d.regc.val < 65536 →
      (r.1.reg d.rega.val : ℤ) = ((s.reg d.regb.val : ℤ) - (s.reg d.regc.val : ℤ)) % 65536)
    ∧ (d.code = OP.MUL → CPU.RUN s d = some r →
      r.1.reg d.rega.val = (s.reg d.regb.val * s.reg d.regc.val) % 65536) := by
  refine ⟨?_, ?_, ?_⟩
  · intro hc h
    rw [RUN_code_ADD s d hc] at h
    cases h
    show Function.update s.reg d.rega.val ((s.reg d.regb.val + s.reg d.regc.val) % 65536) d.rega.val = _
    rw [Function.update_same]
  · intro hc h hlt
    rw [RUN_code_SUB s d hc] at h
    cases h
    have hn : (CPU.SUB s d).1.reg d.rega.val
        = (s.reg d.regb.val + 65536 - s.reg d.regc.val) % 65536 := by
      show Function.update s.reg d.rega.val ((s.reg d.regb.val + 65536 - s.reg d.regc.val) % 65536) d.rega.val = _
      rw [Function.update_same]
    rw [hn]
    omega
  · intro hc h
    rw [RUN_code_MUL s d hc] at h
    cases h
    show Function.update s.reg d.rega.val ((s.reg d.regb.val * s.reg d.regc.val) % 65536) d.rega.val = _
    rw [Function.update_same]

/-- Result of executing ADD on registers 0xFFFF and 0x0001. -/
def rADD : CPU × Nat := CPU.ADD (stateBC 0xFFFF 1) ⟨0xC, 1, 2, 3⟩

/-- Result of executing SUB on registers 0x0000 and 0x0001. -/
def rSUB : CPU × Nat := CPU.SUB (stateBC 0 1) ⟨0xD, 1, 2, 3⟩

/-- Result of executing MUL on registers 0x8000 and 0x0002. -/
def rMUL : CPU × Nat := CPU.MUL (stateBC 0x8000 2) ⟨0xF, 1, 2, 3⟩

/-- Witness for C9 at the wraparound boundaries: 0xFFFF + 0x0001 gives
0x0000, 0x0000 - 0x0001 gives 0xFFFF and 0x8000 * 0x0002 gives 0x0000. -/
theorem C9_add_sub_mul_wrap_mod_2_16_witness :
    rADD.1.reg 1 = (0xFFFF + 1) % 65536 ∧ rADD.1.reg 1 = 0x0000
    ∧ (rSUB.1.reg 1 : ℤ) = ((0 : ℤ) - 1) % 65536 ∧ rSUB.1.reg 1 = 0xFFFF
    ∧ rMUL.1.reg 1 = (0x8000 * 2) % 65536 ∧ rMUL.1.reg 1 = 0x0000 :=
  ⟨(C9_add_sub_mul_wrap_mod_2_16 (stateBC 0xFFFF 1) ⟨0xC, 1, 2, 3⟩ rADD).1 rfl rfl, by decide,
   (C9_add_sub_mul_wrap_mod_2_16 (stateBC 0 1) ⟨0xD, 1, 2, 3⟩ rSUB).2.1 rfl rfl (by decide), by decide,
   (C9_add_sub_mul_wrap_mod_2_16 (stateBC 0x8000 2) ⟨0xF, 1, 2, 3⟩ rMUL).2.2 rfl rfl, by decide⟩

end SDISC
